import Mathlib

/-!
Shallow embedding of `src/lang/rust/src/main.rs` of cyber-watchdog.

The program is a linear pipeline:
  1. enumerate interface names from `/sys/class/net` (per-entry read errors
     are dropped by `filter_map(|e| e.ok())`, `"lo"` is filtered out); if the
     directory read itself fails the working set is `["eth0"]`;
  2. for each interface, run `ip link set <i> up` (exit status discarded),
     then `dhclient -1 -q <i>`; print `"<i> up"` when dhclient launched and
     exited successfully;
  3. run `ping -c1 -W3 8.8.8.8`; print `"ONLINE"` or `"OFFLINE"` and exit
     with code 0 or 1 accordingly.

External commands are modelled by their outcome: `none` means the command
failed to launch (the `Err` case of `Command::status()`), `some b` means the
child exited with success flag `b`.  The ambient directory read is modelled
as `Except Unit (List (Except Unit String))`: the outer `Except` is the
result of `read_dir`, the inner one the result of reading each entry.
-/

/-- An external command invocation performed by the program, in order:
`ip link set <iface> up`, `dhclient -1 -q <iface>`, `ping -c1 -W3 8.8.8.8`. -/
inductive Invocation where
  | linkSet (iface : String)
  | dhclient (iface : String)
  | ping
  deriving DecidableEq, Repr

/-- The ambient environment the program runs in: the interface registry and
the outcome of each external command it may spawn. -/
structure Env where
  /-- Result of `fs::read_dir("/sys/class/net")`: either a listing whose
  entries may individually fail to read, or an I/O error. -/
  readDir : Except Unit (List (Except Unit String))
  /-- Outcome of `ip link set <iface> up` (its status is discarded). -/
  linkSet : String → Option Bool
  /-- Outcome of `dhclient -1 -q <iface>`. -/
  dhclient : String → Option Bool
  /-- Outcome of `ping -c1 -W3 8.8.8.8`. -/
  ping : Option Bool

/-- `Command::status().map(|s| s.success()).unwrap_or(false)`: a command
counts as successful only if it launched and exited with success. -/
def cmdSuccess (o : Option Bool) : Bool :=
  match o with
  | none => false
  | some b => b

/-- The interface enumeration of lines 4-6 of `main.rs`:
`read_dir(...).map(|e| e.filter_map(|e| e.ok()).map(name).filter(|n| n != "lo").collect()).unwrap_or_else(|_| vec!["eth0"])`. -/
def enumIfaces (rd : Except Unit (List (Except Unit String))) : List String :=
  match rd with
  | Except.ok entries =>
      (entries.filterMap Except.toOption).filter (fun n => n != "lo")
  | Except.error _ => ["eth0"]

/-- The `for i in &ifaces` loop of lines 7-10: per interface, a `linkSet`
invocation whose status is discarded, then a `dhclient` invocation whose
success gates printing `"<i> up"`.  Returns the invocation trace and the
printed lines. -/
def activateTrace (env : Env) : List String → List Invocation × List String
  | [] => ([], [])
  | i :: rest =>
      let tail := activateTrace env rest
      (Invocation.linkSet i :: Invocation.dhclient i :: tail.1,
       (if cmdSuccess (env.dhclient i) then [i ++ " up"] else []) ++ tail.2)

/-- Observable result of one run: the invocation trace, the lines printed to
standard output, and the process exit code. -/
structure RunResult where
  invocations : List Invocation
  stdout : List String
  exitCode : Nat
  deriving DecidableEq, Repr

/-- The whole of `main`: enumerate, activate each interface, probe, report. -/
def run (env : Env) : RunResult :=
  let ifaces := enumIfaces env.readDir
  let act := activateTrace env ifaces
  let ok := cmdSuccess env.ping
  { invocations := act.1 ++ [Invocation.ping],
    stdout := act.2 ++ [if ok then "ONLINE" else "OFFLINE"],
    exitCode := if ok then 0 else 1 }

/-! ### Helper lemmas -/

lemma cmdSuccess_eq_true_iff (o : Option Bool) :
    cmdSuccess o = true ↔ o = some true := by
  cases o with
  | none => simp [cmdSuccess]
  | some b => cases b <;> simp [cmdSuccess]

lemma activateTrace_snd (env : Env) (l : List String) :
    (activateTrace env l).2 =
      (l.filter (fun i => cmdSuccess (env.dhclient i))).map (fun i => i ++ " up") := by
  induction l with
  | nil => rfl
  | cons i rest ih =>
      by_cases h : cmdSuccess (env.dhclient i) = true <;>
        simp [activateTrace, List.filter_cons, h, ih]

lemma activateTrace_fst (env : Env) (l : List String) :
    (activateTrace env l).1 =
      l.flatMap (fun i => [Invocation.linkSet i, Invocation.dhclient i]) := by
  induction l with
  | nil => rfl
  | cons i rest ih => simp [activateTrace, ih]

lemma append_up_ne_ONLINE (s : String) : s ++ " up" ≠ "ONLINE" := by
  intro h
  have hd : s.data ++ [' ', 'u', 'p'] = ['O', 'N', 'L'] ++ ['I', 'N', 'E'] := by
    have := congrArg String.data h
    simpa [String.data_append] using this
  have := (List.append_inj' hd (by simp)).2
  simp at this

lemma append_up_ne_OFFLINE (s : String) : s ++ " up" ≠ "OFFLINE" := by
  intro h
  have hd : s.data ++ [' ', 'u', 'p'] = ['O', 'F', 'F', 'L'] ++ ['I', 'N', 'E'] := by
    have := congrArg String.data h
    simpa [String.data_append] using this
  have := (List.append_inj' hd (by simp)).2
  simp at this

lemma append_up_right_cancel {s t : String} (h : s ++ " up" = t ++ " up") :
    s = t := by
  have hd : s.data ++ " up".data = t.data ++ " up".data := by
    have := congrArg String.data h
    simpa [String.data_append] using this
  exact congrArg String.mk (List.append_cancel_right hd)

lemma run_stdout (env : Env) :
    (run env).stdout =
      ((enumIfaces env.readDir).filter (fun i => cmdSuccess (env.dhclient i))).map
          (fun i => i ++ " up") ++
        [if cmdSuccess env.ping then "ONLINE" else "OFFLINE"] := by
  simp [run, activateTrace_snd]

lemma run_invocations (env : Env) :
    (run env).invocations =
      (enumIfaces env.readDir).flatMap
          (fun i => [Invocation.linkSet i, Invocation.dhclient i]) ++
        [Invocation.ping] := by
  simp [run, activateTrace_fst]

lemma getLast?_append_singleton {α : Type} (l : List α) (a : α) :
    (l ++ [a]).getLast? = some a :=
  List.getLast?_concat l

/-! ### Claims -/

/-- C1: the exit code is 0 iff the ICMP probe launched and exited
successfully; otherwise the exit code is 1 and the final printed line is
"OFFLINE". -/
theorem c1_exit_code_correlation (env : Env) :
    ((run env).exitCode = 0 ↔ env.ping = some true) ∧
    ((run env).exitCode ≠ 0 →
      (run env).exitCode = 1 ∧ (run env).stdout.getLast? = some "OFFLINE") := by
  have hs := run_stdout env
  by_cases h : cmdSuccess env.ping = true
  · refine ⟨?_, ?_⟩
    · rw [← cmdSuccess_eq_true_iff]
      simp [run, h]
    · intro hne
      exact absurd (by simp [run, h]) hne
  · refine ⟨?_, fun _ => ⟨by simp [run, h], ?_⟩⟩
    · rw [← cmdSuccess_eq_true_iff]
      simp [run, h]
    · rw [hs, if_neg h, getLast?_append_singleton]

/-- C2: for an interface of the working set, the line "<iface> up" appears on
standard output iff the dhclient invocation for that interface launched and
exited successfully. -/
theorem c2_confirmation_correlation (env : Env) (i : String)
    (h : i ∈ enumIfaces env.readDir) :
    ((i ++ " up") ∈ (run env).stdout ↔ env.dhclient i = some true) := by
  rw [run_stdout, ← cmdSuccess_eq_true_iff]
  constructor
  · intro hmem
    rcases List.mem_append.1 hmem with hm | hm
    · rcases List.mem_map.1 hm with ⟨j, hj, hj2⟩
      rcases append_up_right_cancel hj2
      exact (List.mem_filter.1 hj).2
    · exfalso
      by_cases hp : cmdSuccess env.ping = true
      · rw [if_pos hp] at hm
        simp only [List.mem_singleton] at hm
        exact append_up_ne_ONLINE i hm
      · rw [if_neg hp] at hm
        simp only [List.mem_singleton] at hm
        exact append_up_ne_OFFLINE i hm
  · intro hd
    exact List.mem_append.2 (Or.inl (List.mem_map.2 ⟨i, List.mem_filter.2 ⟨h, hd⟩, rfl⟩))

/-- Witness environment for C2: one readable entry "eth0", dhclient succeeds. -/
def envW2 : Env where
  readDir := Except.ok [Except.ok "eth0"]
  linkSet := fun _ => some true
  dhclient := fun _ => some true
  ping := some true

theorem c2_confirmation_correlation_witness :
    "eth0" ∈ enumIfaces envW2.readDir ∧
    (("eth0" ++ " up") ∈ (run envW2).stdout ↔ envW2.dhclient "eth0" = some true) :=
  ⟨by decide, c2_confirmation_correlation envW2 "eth0" (by decide)⟩

/-- C3: whenever the registry read succeeds and its listing includes a
successfully read entry named "lo", the working set never contains "lo". -/
theorem c3_loopback_exclusion (env : Env)
    (entries : List (Except Unit String))
    (h : env.readDir = Except.ok entries)
    (_hlo : Except.ok "lo" ∈ entries) :
    "lo" ∉ enumIfaces env.readDir := by
  rw [h]
  intro hmem
  have hb := (List.mem_filter.1 hmem).2
  simp at hb

/-- Witness environment for C3: the registry lists "lo" and "eth0". -/
def envW3 : Env where
  readDir := Except.ok [Except.ok "lo", Except.ok "eth0"]
  linkSet := fun _ => some true
  dhclient := fun _ => some true
  ping := some true

theorem c3_loopback_exclusion_witness :
    (envW3.readDir = Except.ok [Except.ok "lo", Except.ok "eth0"] ∧
      (Except.ok "lo" : Except Unit String) ∈
        ([Except.ok "lo", Except.ok "eth0"] : List (Except Unit String))) ∧
    "lo" ∉ enumIfaces envW3.readDir :=
  ⟨⟨rfl, List.mem_cons_self _ _⟩,
    c3_loopback_exclusion envW3 _ rfl (List.mem_cons_self _ _)⟩

/-- C4: if the registry read fails, the working set is exactly ["eth0"] and
the run still performs the full activation cycle and the probe, with no error
propagated. -/
theorem c4_fallback_guarantee (env : Env) (h : env.readDir = Except.error ()) :
    enumIfaces env.readDir = ["eth0"] ∧
    (run env).invocations =
      [Invocation.linkSet "eth0", Invocation.dhclient "eth0", Invocation.ping] := by
  refine ⟨by rw [h]; rfl, ?_⟩
  rw [run_invocations, h]
  rfl

/-- Witness environment for C4: the registry read fails. -/
def envW4 : Env where
  readDir := Except.error ()
  linkSet := fun _ => none
  dhclient := fun _ => none
  ping := none

theorem c4_fallback_guarantee_witness :
    envW4.readDir = Except.error () ∧
    (enumIfaces envW4.readDir = ["eth0"] ∧
      (run envW4).invocations =
        [Invocation.linkSet "eth0", Invocation.dhclient "eth0", Invocation.ping]) :=
  ⟨rfl, c4_fallback_guarantee envW4 rfl⟩

/-- C5: the invocation trace depends only on the registry (so a failing
link-admin or dhclient outcome never prevents later interfaces from being
attempted), every interface of the working set receives both of its
invocations, and the exit code is a function of the probe outcome alone. -/
theorem c5_best_effort_independence (env env' : Env)
    (h : env.readDir = env'.readDir) :
    (run env).invocations = (run env').invocations ∧
    (∀ i ∈ enumIfaces env.readDir,
      Invocation.linkSet i ∈ (run env).invocations ∧
      Invocation.dhclient i ∈ (run env).invocations) ∧
    (env.ping = env'.ping → (run env).exitCode = (run env').exitCode) ∧
    (run env).exitCode = (if cmdSuccess env.ping then 0 else 1) := by
  refine ⟨by rw [run_invocations, run_invocations, h], ?_, ?_, rfl⟩
  · intro i hi
    rw [run_invocations]
    constructor <;>
      exact List.mem_append.2 (Or.inl (List.mem_flatMap.2 ⟨i, hi, by simp⟩))
  · intro hp
    simp [run, hp]

/-- Witness environments for C5: same registry and probe outcome, dhclient
succeeds in one and fails to launch in the other. -/
def envW5a : Env where
  readDir := Except.ok [Except.ok "eth0", Except.ok "wlan0"]
  linkSet := fun _ => some true
  dhclient := fun _ => some true
  ping := some true

def envW5b : Env where
  readDir := Except.ok [Except.ok "eth0", Except.ok "wlan0"]
  linkSet := fun _ => none
  dhclient := fun _ => none
  ping := some true

theorem c5_best_effort_independence_witness :
    envW5a.readDir = envW5b.readDir ∧
    (run envW5a).invocations = (run envW5b).invocations ∧
    (run envW5a).exitCode = (run envW5b).exitCode :=
  ⟨rfl, (c5_best_effort_independence envW5a envW5b rfl).1,
    (c5_best_effort_independence envW5a envW5b rfl).2.2.1 rfl⟩

/-- C6: standard output is the "<iface> up" lines of the interfaces whose
dhclient invocation succeeded, in enumeration order, followed by exactly one
final line that is "ONLINE" or "OFFLINE". -/
theorem c6_stdout_shape (env : Env) :
    (run env).stdout =
      ((enumIfaces env.readDir).filter (fun i => cmdSuccess (env.dhclient i))).map
          (fun i => i ++ " up") ++
        [if cmdSuccess env.ping then "ONLINE" else "OFFLINE"] :=
  run_stdout env

/-- The end-to-end scenario environment: registry lists "lo", "eth0",
"wlan0"; link-admin always succeeds; dhclient succeeds only for "eth0"; the
probe succeeds. -/
def envScenario : Env where
  readDir := Except.ok [Except.ok "lo", Except.ok "eth0", Except.ok "wlan0"]
  linkSet := fun _ => some true
  dhclient := fun i => some (i == "eth0")
  ping := some true

/-- C7: in the end-to-end scenario, standard output is exactly the two lines
"eth0 up" then "ONLINE" and the exit code is 0. -/
theorem c7_end_to_end_scenario :
    (run envScenario).stdout = ["eth0 up", "ONLINE"] ∧
    (run envScenario).exitCode = 0 := by
  constructor <;> decide

/-- A readable registry whose only entry is the loopback interface. -/
def envLoopbackOnly : Env where
  readDir := Except.ok [Except.ok "lo"]
  linkSet := fun _ => some true
  dhclient := fun _ => some true
  ping := some true

/-- C8 counterexample: with a readable registry whose only entry is "lo", the
working set is empty and the run performs no link-admin or dhclient
invocation at all, so it is not true that every run has a non-empty working
set and at least one activation cycle. -/
theorem c8_empty_working_set_counterexample :
    enumIfaces envLoopbackOnly.readDir = [] ∧
    (run envLoopbackOnly).invocations = [Invocation.ping] := by
  constructor <;> decide

/-- C8 amended: if the registry read fails, the working set is non-empty and
at least one activation cycle is attempted (a link-admin and a dhclient
invocation occur for the fallback name); with a readable registry the working
set may be empty and no activation cycle occurs. -/
theorem c8_fallback_nonempty (env : Env) (h : env.readDir = Except.error ()) :
    enumIfaces env.readDir ≠ [] ∧
    Invocation.linkSet "eth0" ∈ (run env).invocations ∧
    Invocation.dhclient "eth0" ∈ (run env).invocations := by
  rw [run_invocations, h]
  refine ⟨by decide, by decide, by decide⟩

/-- Witness environment for the amended C8: the registry read fails. -/
def envW8 : Env where
  readDir := Except.error ()
  linkSet := fun _ => some true
  dhclient := fun _ => some false
  ping := some false

theorem c8_fallback_nonempty_witness :
    envW8.readDir = Except.error () ∧
    (enumIfaces envW8.readDir ≠ [] ∧
      Invocation.linkSet "eth0" ∈ (run envW8).invocations ∧
      Invocation.dhclient "eth0" ∈ (run envW8).invocations) :=
  ⟨rfl, c8_fallback_nonempty envW8 rfl⟩

/-- C9: loopback exclusion is exact string equality with "lo": any
successfully read entry whose name merely contains or extends "lo" (such as
"lo0" or "Lo") stays in the working set and receives its link-admin and
dhclient invocations like any other interface. -/
theorem c9_exact_loopback_match (env : Env)
    (entries : List (Except Unit String)) (n : String)
    (h : env.readDir = Except.ok entries)
    (hn : Except.ok n ∈ entries) (hne : n ≠ "lo") :
    n ∈ enumIfaces env.readDir ∧
    Invocation.linkSet n ∈ (run env).invocations ∧
    Invocation.dhclient n ∈ (run env).invocations := by
  have hmem : n ∈ enumIfaces env.readDir := by
    rw [h]
    refine List.mem_filter.2 ⟨List.mem_filterMap.2 ⟨Except.ok n, hn, rfl⟩, ?_⟩
    simpa using hne
  refine ⟨hmem, ?_, ?_⟩ <;>
    · rw [run_invocations]
      exact List.mem_append.2 (Or.inl (List.mem_flatMap.2 ⟨n, hmem, by simp⟩))

/-- Witness environment for C9: the registry lists "lo0", "Lo" and "lo". -/
def envW9 : Env where
  readDir := Except.ok [Except.ok "lo0", Except.ok "Lo", Except.ok "lo"]
  linkSet := fun _ => some true
  dhclient := fun _ => some true
  ping := some true

theorem c9_exact_loopback_match_witness :
    (envW9.readDir = Except.ok [Except.ok "lo0", Except.ok "Lo", Except.ok "lo"] ∧
      (Except.ok "lo0" : Except Unit String) ∈
        ([Except.ok "lo0", Except.ok "Lo", Except.ok "lo"] :
          List (Except Unit String)) ∧
      "lo0" ≠ "lo") ∧
    ("lo0" ∈ enumIfaces envW9.readDir ∧
      Invocation.linkSet "lo0" ∈ (run envW9).invocations ∧
      Invocation.dhclient "lo0" ∈ (run envW9).invocations) :=
  ⟨⟨rfl, List.mem_cons_self _ _, by decide⟩,
    c9_exact_loopback_match envW9 _ "lo0" rfl (List.mem_cons_self _ _) (by decide)⟩

/-- C10: a per-entry read error while iterating a readable registry is
silently dropped and never triggers the fallback name, and a readable
registry whose successfully read non-loopback entries are empty yields an
empty working set with zero activation cycles. -/
theorem c10_per_entry_errors_dropped (es₁ es₂ : List (Except Unit String))
    (env : Env) (entries : List (Except Unit String))
    (h : env.readDir = Except.ok entries)
    (hempty :
      (entries.filterMap Except.toOption).filter (fun n => n != "lo") = []) :
    enumIfaces (Except.ok (es₁ ++ Except.error () :: es₂)) =
      enumIfaces (Except.ok (es₁ ++ es₂)) ∧
    enumIfaces env.readDir = [] ∧
    (run env).invocations = [Invocation.ping] := by
  refine ⟨?_, ?_, ?_⟩
  · simp [enumIfaces, List.filterMap_append, List.filterMap_cons, Except.toOption]
  · rw [h]
    simpa [enumIfaces] using hempty
  · rw [run_invocations, h]
    simp [enumIfaces, hempty]

/-- Witness environment for C10: the registry listing holds one unreadable
entry and the loopback entry. -/
def envW10 : Env where
  readDir := Except.ok [Except.error (), Except.ok "lo"]
  linkSet := fun _ => some true
  dhclient := fun _ => some true
  ping := some false

theorem c10_per_entry_errors_dropped_witness :
    (envW10.readDir = Except.ok [Except.error (), Except.ok "lo"] ∧
      (([Except.error (), Except.ok "lo"] :
          List (Except Unit String)).filterMap Except.toOption).filter
        (fun n => n != "lo") = []) ∧
    (enumIfaces (Except.ok ([Except.error ()] ++ Except.error () :: [])) =
        enumIfaces (Except.ok ([Except.error ()] ++ ([] : List (Except Unit String)))) ∧
      enumIfaces envW10.readDir = [] ∧
      (run envW10).invocations = [Invocation.ping]) :=
  ⟨⟨rfl, by decide⟩,
    c10_per_entry_errors_dropped [Except.error ()] [] envW10 _ rfl (by decide)⟩
